import Mathlib

/-!
Verification of the Qt QML overlay filter (`ext/qt/gstqtoverlay.cc`).

A shallow embedding of the `GstQtOverlay` element: its instance structure, its
property setter, the three GL hooks (`gl_start`, `gl_stop`, `gl_set_caps`) and the two
base-transform hooks (`prepare_output_buffer`, `transform`).

The element talks to collaborators that live outside the file: the parent class
(`GstGLFilter` / `GstGLBaseFilter`), the `GstQuickRenderer`, the
`QtGLVideoItemInterface` surface and the GStreamer buffer library.  Every call to a
collaborator is recorded, in program order, as an `Event`; what a collaborator
answers is supplied by a record of replies, one per invocation of a hook, so that
the theorems quantify over every possible behaviour of the collaborators.

Pointers to collaborator objects are opaque `Handle`s; a pointer the code tests
against `NULL` is an `Option`.  `gint` values are `Int`, `guint` values are `Nat`
reduced modulo `2 ^ 32`, `GstClockTime` is `Nat`.  A hook that dereferences the
renderer pointer without a test returns `none` when that pointer is `NULL`.
-/

namespace QtOverlay

/-- Identity of an object owned by a collaborator (a non-interpreted pointer). -/
abbrev Handle := Nat

/-- The fields of `GstVideoInfo` read by the element
(`GST_VIDEO_INFO_FORMAT`, `GST_VIDEO_INFO_WIDTH`, `GST_VIDEO_INFO_HEIGHT`). -/
structure GstVideoInfo where
  format : Nat
  width : Int
  height : Int
deriving DecidableEq, Repr

/-- The parent instance: the fields of `GstGLBaseFilter` and `GstGLFilter` that the
element reads (`bfilter->context`, `bfilter->in_caps`, `filter->in_info`,
`filter->out_info`). -/
structure GstGLFilter where
  context : Handle
  in_caps : Handle
  in_info : GstVideoInfo
  out_info : GstVideoInfo
deriving DecidableEq, Repr

/-- The instance structure `GstQtOverlay`: the parent instance, the `qml-scene`
string (`gchar *`, nullable), the renderer pointer (nullable) and the shared pointer
to the video item interface (nullable). -/
structure GstQtOverlay where
  parent : GstGLFilter
  qml_scene : Option String
  renderer : Option Handle
  widget : Option Handle
deriving DecidableEq, Repr

/-- One call made by the element to a collaborator, with its arguments. -/
inductive Event where
  | gst_trace (scene : Option String)
  | element_error (message : String)
  | parent_gl_start
  | renderer_new (r : Handle)
  | renderer_init (r : Handle) (context : Handle)
  | renderer_setQmlScene (r : Handle) (scene : String)
  | renderer_rootItem (r : Handle)
  | signal_qml_scene_initialized (root : Handle)
  | widget_setCaps (w : Handle) (caps : Handle)
  | widget_setBuffer (w : Handle) (buffer : Option Handle)
  | renderer_cleanup (r : Handle)
  | renderer_delete (r : Handle)
  | parent_gl_stop
  | parent_gl_set_caps (in_caps : Handle) (out_caps : Handle)
  | renderer_setSize (r : Handle) (w : Int) (h : Int)
  | renderer_generateOutput (r : Handle) (pts : Nat)
  | gst_error (message : String)
  | buffer_new
  | buffer_append_memory (mem : Handle)
  | buffer_add_video_meta (flags : Nat) (format : Nat) (width : Nat) (height : Nat)
  | buffer_add_gl_sync_meta (context : Handle)
  | gl_sync_meta_set_sync_point (context : Handle)
  | copy_metadata (inbuf : Handle)
deriving DecidableEq, Repr

/-- A `GST_ELEMENT_ERROR (..., RESOURCE, NOT_FOUND, ...)` message posted by the element. -/
def Event.isElementError : Event → Bool
  | .element_error _ => true
  | _ => false

/-- An emission of the `qml-scene-initialized` signal. -/
def Event.isSignal : Event → Bool
  | .signal_qml_scene_initialized _ => true
  | _ => false

/-- A call on the parent class. -/
def Event.isParentCall : Event → Bool
  | .parent_gl_start => true
  | .parent_gl_stop => true
  | .parent_gl_set_caps _ _ => true
  | _ => false

/-- A call on the renderer, its construction and destruction included. -/
def Event.isRendererCall : Event → Bool
  | .renderer_new _ => true
  | .renderer_init _ _ => true
  | .renderer_setQmlScene _ _ => true
  | .renderer_rootItem _ => true
  | .renderer_cleanup _ => true
  | .renderer_delete _ => true
  | .renderer_setSize _ _ _ => true
  | .renderer_generateOutput _ _ => true
  | _ => false

/-- A call of `generateOutput` on the renderer. -/
def Event.isGenerateOutput : Event → Bool
  | .renderer_generateOutput _ _ => true
  | _ => false

/-- A call on the video item interface (the surface). -/
def Event.isWidgetCall : Event → Bool
  | .widget_setCaps _ _ => true
  | .widget_setBuffer _ _ => true
  | _ => false

/-- A call that creates or fills an outgoing buffer. -/
def Event.isBufferCall : Event → Bool
  | .buffer_new => true
  | .buffer_append_memory _ => true
  | .buffer_add_video_meta _ _ _ _ => true
  | .buffer_add_gl_sync_meta _ => true
  | .gl_sync_meta_set_sync_point _ => true
  | .copy_metadata _ => true
  | _ => false

/-- What a hook returns: its return value, the instance after the call and the
calls it made, in order. -/
structure Outcome (α : Type) where
  ret : α
  self : GstQtOverlay
  calls : List Event

/-- A `GValue` as the property setter reads it. -/
inductive GValue where
  | pointer (p : Option Handle)
  | string (s : Option String)
deriving DecidableEq, Repr

/-- The pointer held by a value, `NULL` when the value holds no pointer. -/
def g_value_get_pointer : GValue → Option Handle
  | .pointer p => p
  | .string _ => none

/-- A copy of the string held by a value, `NULL` when the value holds no string. -/
def g_value_dup_string : GValue → Option String
  | .string s => s
  | .pointer _ => none

/-- Property identifier of `widget`. -/
def PROP_WIDGET : Nat := 1

/-- Property identifier of `qml-scene`. -/
def PROP_QML_SCENE : Nat := 2

/-- One write of a property by the host: the property, the value, and what
`QtGLVideoItem::getInterface` answers for the item the value points to. -/
structure PropertyWrite where
  prop_id : Nat
  value : GValue
  getInterface : Handle → Option Handle

/-- The instance as `gst_qt_overlay_init` leaves it: instance memory is zero-filled
(`qml_scene` and `renderer` are `NULL`) and `widget` is the null shared pointer. -/
def gst_qt_overlay_init (parent : GstGLFilter) : GstQtOverlay :=
  { parent := parent, qml_scene := none, renderer := none, widget := none }

/-- The property setter `gst_qt_overlay_set_property`. -/
def gst_qt_overlay_set_property (self : GstQtOverlay) (w : PropertyWrite) : GstQtOverlay :=
  if w.prop_id = PROP_WIDGET then
    match g_value_get_pointer w.value with
    | some qt_item => { self with widget := w.getInterface qt_item }
    | none => { self with widget := none }
  else if w.prop_id = PROP_QML_SCENE then
    { self with qml_scene := g_value_dup_string w.value }
  else
    self

/-- What the collaborators answer during one call of `gl_start`: the parent hook
(its result and the parent instance it leaves), the address of the renderer that
`new` returns, the error message of `init` and of `setQmlScene` (`none` when the
call returns true; a false return sets the `GError`), the root item, and the
property writes made by the handlers of `qml-scene-initialized` while it is
emitted. -/
structure StartReplies where
  parent_gl_start : GstGLFilter → Bool × GstGLFilter
  new_renderer : Handle
  init_error : Option String
  setQmlScene_error : Option String
  rootItem : Option Handle
  signal_handlers : List PropertyWrite

/-- The hook `gst_qt_overlay_gl_start`. -/
def gst_qt_overlay_gl_start (env : StartReplies) (self : GstQtOverlay) : Outcome Bool :=
  let log0 := [Event.gst_trace self.qml_scene]
  match self.qml_scene with
  | none => ⟨false, self, log0 ++ [.element_error "qml-scene property not set"]⟩
  | some scene =>
    if scene = "" then
      ⟨false, self, log0 ++ [.element_error "qml-scene property not set"]⟩
    else
      let started := env.parent_gl_start self.parent
      let self1 := { self with parent := started.2 }
      let log1 := log0 ++ [.parent_gl_start]
      if started.1 = false then
        ⟨false, self1, log1⟩
      else
        let r := env.new_renderer
        let self2 := { self1 with renderer := some r }
        let log2 := log1 ++ [.renderer_new r, .renderer_init r self2.parent.context]
        match env.init_error with
        | some message => ⟨false, self2, log2 ++ [.element_error message]⟩
        | none =>
          let log3 := log2 ++ [.renderer_setQmlScene r scene]
          match env.setQmlScene_error with
          | some message => ⟨false, self2, log3 ++ [.element_error message]⟩
          | none =>
            let log4 := log3 ++ [.renderer_rootItem r]
            match env.rootItem with
            | none =>
              ⟨false, self2, log4 ++ [.element_error "Qml scene does not have a root item"]⟩
            | some root =>
              ⟨true, env.signal_handlers.foldl gst_qt_overlay_set_property self2,
                log4 ++ [.signal_qml_scene_initialized root]⟩

/-- What the parent class answers during one call of `gl_stop`. -/
structure StopReplies where
  parent_gl_stop : GstGLFilter → GstGLFilter

/-- The hook `gst_qt_overlay_gl_stop`. -/
def gst_qt_overlay_gl_stop (env : StopReplies) (self : GstQtOverlay) : Outcome Unit :=
  let log0 : List Event :=
    match self.widget with
    | some w => [.widget_setBuffer w none]
    | none => []
  let log1 : List Event :=
    match self.renderer with
    | some r => log0 ++ [.renderer_cleanup r, .renderer_delete r]
    | none => log0
  let self1 := { self with renderer := none }
  ⟨(), { self1 with parent := env.parent_gl_stop self1.parent }, log1 ++ [.parent_gl_stop]⟩

/-- What the parent class answers during one call of `gl_set_caps`. -/
structure SetCapsReplies where
  parent_gl_set_caps : GstGLFilter → Handle → Handle → Bool × GstGLFilter

/-- The hook `gst_qt_overlay_gl_set_caps`; `none` when the renderer pointer is
dereferenced while `NULL`. -/
def gst_qt_overlay_gl_set_caps (env : SetCapsReplies) (self : GstQtOverlay)
    (in_caps out_caps : Handle) : Option (Outcome Bool) :=
  let set := env.parent_gl_set_caps self.parent in_caps out_caps
  let self1 := { self with parent := set.2 }
  let log1 := [Event.parent_gl_set_caps in_caps out_caps]
  if set.1 = false then
    some ⟨false, self1, log1⟩
  else
    match self1.renderer with
    | none => none
    | some r =>
      some ⟨true, self1,
        log1 ++ [.renderer_setSize r self1.parent.out_info.width self1.parent.out_info.height]⟩

/-- The conversion of a `gint` argument to a `guint` parameter. -/
def to_guint (x : Int) : Nat := (x % 4294967296).toNat

/-- A meta attached to a buffer: a video meta (flags, format, width, height) or a GL
sync meta (the context it was created for and, once set, the context whose command
stream carries its sync point). -/
inductive GstMeta where
  | video (flags : Nat) (format : Nat) (width : Nat) (height : Nat)
  | gl_sync (context : Handle) (sync_point : Option Handle)
deriving DecidableEq, Repr

/-- An outgoing buffer: its memories, its metas, and the buffers whose metadata was
copied onto it, each in order of attachment. -/
structure GstBuffer where
  memory : List Handle
  metas : List GstMeta
  metadata_from : List Handle
deriving DecidableEq, Repr

/-- An incoming buffer: its identity and its presentation timestamp
(`GST_BUFFER_PTS`). -/
structure InBuffer where
  handle : Handle
  pts : Nat
deriving DecidableEq, Repr

/-- The library call `gst_buffer_new`: a buffer with no memory and no meta. -/
def gst_buffer_new : GstBuffer :=
  { memory := [], metas := [], metadata_from := [] }

/-- The library call `gst_buffer_append_memory`. -/
def gst_buffer_append_memory (b : GstBuffer) (mem : Handle) : GstBuffer :=
  { b with memory := b.memory ++ [mem] }

/-- The library call `gst_buffer_add_video_meta`. -/
def gst_buffer_add_video_meta (b : GstBuffer) (flags format width height : Nat) : GstBuffer :=
  { b with metas := b.metas ++ [.video flags format width height] }

/-- The library call `gst_buffer_add_gl_sync_meta`: the buffer with the new meta and
the position of that meta (the returned pointer). -/
def gst_buffer_add_gl_sync_meta (context : Handle) (b : GstBuffer) : GstBuffer × Nat :=
  ({ b with metas := b.metas ++ [.gl_sync context none] }, b.metas.length)

/-- Sets the sync point of the sync meta at position `i` of a list of metas. -/
def set_sync_point_at : List GstMeta → Nat → Handle → List GstMeta
  | [], _, _ => []
  | .gl_sync c _ :: ms, 0, context => .gl_sync c (some context) :: ms
  | m :: ms, 0, _ => m :: ms
  | m :: ms, i + 1, context => m :: set_sync_point_at ms i context

/-- The library call `gst_gl_sync_meta_set_sync_point` on the sync meta at position
`sync_meta` of the buffer. -/
def gst_gl_sync_meta_set_sync_point (b : GstBuffer) (sync_meta : Nat) (context : Handle) :
    GstBuffer :=
  { b with metas := set_sync_point_at b.metas sync_meta context }

/-- The class hook `copy_metadata` of the base transform, as far as the outgoing
buffer records it. -/
def copy_metadata (inbuf : InBuffer) (b : GstBuffer) : GstBuffer :=
  { b with metadata_from := b.metadata_from ++ [inbuf.handle] }

/-- The sync metas of a buffer. -/
def GstBuffer.sync_metas (b : GstBuffer) : List GstMeta :=
  b.metas.filter fun m => match m with
    | .gl_sync _ _ => true
    | .video _ _ _ _ => false

/-- The video metas of a buffer. -/
def GstBuffer.video_metas (b : GstBuffer) : List GstMeta :=
  b.metas.filter fun m => match m with
    | .video _ _ _ _ => true
    | .gl_sync _ _ => false

/-- The flow returns used by the element. -/
inductive GstFlowReturn where
  | GST_FLOW_OK
  | GST_FLOW_ERROR
deriving DecidableEq, Repr

/-- What the renderer answers during one call of `prepare_output_buffer`: the
memory returned by `generateOutput`, `none` for `NULL`. -/
structure FrameReplies where
  generateOutput : Option Handle

/-- What `prepare_output_buffer` returns: the flow return, the instance, the calls
made, and the content of the caller's `*outbuf` slot after the call. -/
structure FrameOutcome where
  ret : GstFlowReturn
  self : GstQtOverlay
  calls : List Event
  outbuf : Option GstBuffer

/-- The calls made on the surface before the render pass. -/
def push_frame_calls (self : GstQtOverlay) (buffer : InBuffer) : List Event :=
  match self.widget with
  | some w => [.widget_setCaps w self.parent.in_caps, .widget_setBuffer w (some buffer.handle)]
  | none => []

/-- The hook `gst_qt_overlay_prepare_output_buffer`; `outbuf` is the content of the
caller's slot before the call; `none` when the renderer pointer is dereferenced
while `NULL`. -/
def gst_qt_overlay_prepare_output_buffer (env : FrameReplies) (self : GstQtOverlay)
    (buffer : InBuffer) (outbuf : Option GstBuffer) : Option FrameOutcome :=
  let log0 := push_frame_calls self buffer
  match self.renderer with
  | none => none
  | some r =>
    let log1 := log0 ++ [.renderer_generateOutput r buffer.pts]
    match env.generateOutput with
    | none =>
      some ⟨.GST_FLOW_ERROR, self, log1 ++ [.gst_error "Failed to generate output"], outbuf⟩
    | some out_mem =>
      let format := self.parent.out_info.format
      let width := to_guint self.parent.in_info.width
      let height := to_guint self.parent.out_info.height
      let b0 := gst_buffer_new
      let b1 := gst_buffer_append_memory b0 out_mem
      let b2 := gst_buffer_add_video_meta b1 0 format width height
      let added := gst_buffer_add_gl_sync_meta self.parent.context b2
      let b4 := gst_gl_sync_meta_set_sync_point added.1 added.2 self.parent.context
      let b5 := copy_metadata buffer b4
      some ⟨.GST_FLOW_OK, self,
        log1 ++ [.buffer_new, .buffer_append_memory out_mem,
          .buffer_add_video_meta 0 format width height,
          .buffer_add_gl_sync_meta self.parent.context,
          .gl_sync_meta_set_sync_point self.parent.context,
          .copy_metadata buffer.handle],
        some b5⟩

/-- The hook `gst_qt_overlay_transform`. -/
def gst_qt_overlay_transform (self : GstQtOverlay) (_inbuf _outbuf : Handle) :
    Outcome GstFlowReturn :=
  ⟨.GST_FLOW_OK, self, []⟩

/-- The effect of one call on the recorded size of renderer `r`: `setSize` on `r`
records its arguments, the construction of `r` forgets them, any other call leaves
the size as it is. -/
def size_after (r : Handle) (size : Option (Int × Int)) : Event → Option (Int × Int)
  | .renderer_setSize r1 w h => if r1 = r then some (w, h) else size
  | .renderer_new r1 => if r1 = r then none else size
  | _ => size

/-- Modelled from the spec: the renderer (`qtglrenderer.cc`) is outside the file;
`resize(width, height)` "updates the render target dimensions for subsequent render
passes", so the size of renderer `r` after a history of calls is the pair passed to
the last `setSize` on it. -/
def renderer_size (r : Handle) (history : List Event) : Option (Int × Int) :=
  history.foldl (size_after r) none

/-- An operation the host performs on the element, with what the collaborators
answer during it. -/
inductive Op where
  | set_property (w : PropertyWrite)
  | gl_start (env : StartReplies)
  | gl_set_caps (env : SetCapsReplies) (in_caps : Handle) (out_caps : Handle)
  | prepare_output_buffer (env : FrameReplies) (buffer : InBuffer)
  | transform (inbuf : Handle) (outbuf : Handle)
  | gl_stop (env : StopReplies)

/-- The operation is a stop. -/
def Op.isStop : Op → Bool
  | .gl_stop _ => true
  | _ => false

/-- The element together with the history of the calls it has made. -/
structure Sys where
  self : GstQtOverlay
  trace : List Event

/-- One operation of the host; `none` when the operation dereferences a `NULL`
renderer. -/
def step (s : Sys) : Op → Option Sys
  | .set_property w => some ⟨gst_qt_overlay_set_property s.self w, s.trace⟩
  | .gl_start env =>
    let o := gst_qt_overlay_gl_start env s.self
    some ⟨o.self, s.trace ++ o.calls⟩
  | .gl_set_caps env in_caps out_caps =>
    (gst_qt_overlay_gl_set_caps env s.self in_caps out_caps).map fun o =>
      ⟨o.self, s.trace ++ o.calls⟩
  | .prepare_output_buffer env buffer =>
    (gst_qt_overlay_prepare_output_buffer env s.self buffer none).map fun o =>
      ⟨o.self, s.trace ++ o.calls⟩
  | .transform inbuf outbuf =>
    let o := gst_qt_overlay_transform s.self inbuf outbuf
    some ⟨o.self, s.trace ++ o.calls⟩
  | .gl_stop env =>
    let o := gst_qt_overlay_gl_stop env s.self
    some ⟨o.self, s.trace ++ o.calls⟩

/-- A sequence of operations of the host, in order. -/
def run (s : Sys) : List Op → Option Sys
  | [] => some s
  | op :: ops =>
    match step s op with
    | none => none
    | some s1 => run s1 ops

/-! Concrete inputs. -/

/-- A parent instance negotiated from 640x480 input to 1920x1080 output, RGBA
(`GST_VIDEO_FORMAT_RGBA = 11`). -/
def sample_parent : GstGLFilter :=
  { context := 1, in_caps := 2,
    in_info := { format := 11, width := 640, height := 480 },
    out_info := { format := 11, width := 1920, height := 1080 } }

/-- A freshly initialised element whose `qml-scene` was set to a scene text. -/
def sample_configured : GstQtOverlay :=
  gst_qt_overlay_set_property (gst_qt_overlay_init sample_parent)
    { prop_id := PROP_QML_SCENE, value := .string (some "Rectangle"), getInterface := fun _ => none }

/-- Replies of a start in which every collaborator succeeds; the renderer is
object 7, the root item object 9, and no handler writes a property. -/
def sample_start_ok : StartReplies :=
  { parent_gl_start := fun p => (true, p), new_renderer := 7, init_error := none,
    setQmlScene_error := none, rootItem := some 9, signal_handlers := [] }

/-- Replies of a start in which the parent succeeds and the renderer fails to
initialise. -/
def sample_start_init_fails : StartReplies :=
  { sample_start_ok with init_error := some "Could not create OpenGL context" }

/-- Replies of a stop whose parent hook leaves the parent instance as it is. -/
def sample_stop : StopReplies :=
  { parent_gl_stop := fun p => p }

/-- A running element: renderer 7 held, surface 5 bound. -/
def sample_running : GstQtOverlay :=
  { parent := sample_parent, qml_scene := some "Rectangle", renderer := some 7, widget := some 5 }

/-- An incoming buffer with presentation timestamp 40 ms. -/
def sample_buffer : InBuffer :=
  { handle := 30, pts := 40000000 }

/-- Replies of a caps change whose parent hook succeeds and leaves the parent
instance as it is. -/
def sample_set_caps_ok : SetCapsReplies :=
  { parent_gl_set_caps := fun p _ _ => (true, p) }

/-- Replies of a caps change whose parent hook fails. -/
def sample_set_caps_fails : SetCapsReplies :=
  { parent_gl_set_caps := fun p _ _ => (false, p) }

/-! Theorems. -/

/-- The property setter never touches the renderer pointer. -/
theorem set_property_renderer (self : GstQtOverlay) (w : PropertyWrite) :
    (gst_qt_overlay_set_property self w).renderer = self.renderer := by
  unfold gst_qt_overlay_set_property
  split
  · split <;> rfl
  · split <;> rfl

/-- A sequence of property writes never touches the renderer pointer. -/
theorem set_properties_renderer (ws : List PropertyWrite) (self : GstQtOverlay) :
    (ws.foldl gst_qt_overlay_set_property self).renderer = self.renderer := by
  induction ws generalizing self with
  | nil => rfl
  | cons w ws ih => rw [List.foldl_cons, ih, set_property_renderer]

/-- C1: when the scene source is unset or the empty string, `gl_start` returns
failure, leaves every field of the instance as it was, and its only calls are the
trace log and one `not found` error "qml-scene property not set": no call on the
parent class and no call on (or construction of) a renderer. -/
theorem C1_start_without_scene (env : StartReplies) (self : GstQtOverlay)
    (h : self.qml_scene = none ∨ self.qml_scene = some "") :
    (gst_qt_overlay_gl_start env self).ret = false ∧
    (gst_qt_overlay_gl_start env self).self = self ∧
    (gst_qt_overlay_gl_start env self).calls =
      [.gst_trace self.qml_scene, .element_error "qml-scene property not set"] ∧
    (gst_qt_overlay_gl_start env self).calls.filter Event.isElementError =
      [.element_error "qml-scene property not set"] ∧
    (gst_qt_overlay_gl_start env self).calls.filter Event.isParentCall = [] ∧
    (gst_qt_overlay_gl_start env self).calls.filter Event.isRendererCall = [] := by
  rcases h with h | h <;>
    simp [gst_qt_overlay_gl_start, h, Event.isElementError, Event.isParentCall,
      Event.isRendererCall]

/-- C1 at concrete inputs: a fresh element (scene unset), and an element whose
scene was set to the empty string. -/
theorem C1_start_without_scene_witness :
    (gst_qt_overlay_gl_start sample_start_ok (gst_qt_overlay_init sample_parent)).ret = false ∧
    (gst_qt_overlay_gl_start sample_start_ok
      { sample_running with qml_scene := some "" }).self.renderer = some 7 :=
  ⟨(C1_start_without_scene sample_start_ok (gst_qt_overlay_init sample_parent)
      (Or.inl rfl)).1,
   by rw [(C1_start_without_scene sample_start_ok { sample_running with qml_scene := some "" }
      (Or.inr rfl)).2.1]; rfl⟩

/-- C2: a start from the stopped state in which the parent hook succeeds and the
renderer fails to initialise returns failure and keeps the renderer it has just
constructed (object 7) in the renderer field, without `cleanup` or deletion; a
later successful start overwrites the field with a new renderer (object 8) and
never cleans up or deletes object 7. -/
theorem C2_failed_start_keeps_renderer :
    sample_configured.renderer = none ∧
    (gst_qt_overlay_gl_start sample_start_init_fails sample_configured).ret = false ∧
    (gst_qt_overlay_gl_start sample_start_init_fails sample_configured).self.renderer = some 7 ∧
    (gst_qt_overlay_gl_start sample_start_init_fails sample_configured).calls.filter
      Event.isRendererCall = [.renderer_new 7, .renderer_init 7 1] ∧
    (run ⟨sample_configured, []⟩
      [.gl_start sample_start_init_fails, .gl_start { sample_start_ok with new_renderer := 8 }]).map
      (fun s => (s.self.renderer, s.trace.filter Event.isRendererCall)) =
      some (some 8, [.renderer_new 7, .renderer_init 7 1, .renderer_new 8, .renderer_init 8 1,
        .renderer_setQmlScene 8 "Rectangle", .renderer_rootItem 8]) := by
  simp [run, step, gst_qt_overlay_gl_start, sample_start_init_fails, sample_start_ok,
    sample_configured, gst_qt_overlay_set_property, gst_qt_overlay_init, PROP_QML_SCENE,
    PROP_WIDGET, g_value_dup_string, sample_parent, Event.isRendererCall]

/-- C3: `gl_start` returns success exactly when the scene source is non-empty, the
parent hook succeeds, `init` succeeds, `setQmlScene` succeeds and `rootItem` is not
null; on success the signal `qml-scene-initialized` is emitted exactly once, with
the root item as its argument; on failure it is not emitted; and when everything
up to `setQmlScene` succeeds but the root item is null, the start fails, posts the
error "Qml scene does not have a root item" and emits nothing. -/
theorem C3_signal_iff_start_succeeds (env : StartReplies) (self : GstQtOverlay) :
    ((gst_qt_overlay_gl_start env self).ret = true ↔
      ((∃ scene, self.qml_scene = some scene ∧ scene ≠ "") ∧
        (env.parent_gl_start self.parent).1 = true ∧ env.init_error = none ∧
        env.setQmlScene_error = none ∧ ∃ root, env.rootItem = some root)) ∧
    ((gst_qt_overlay_gl_start env self).ret = true →
      ∃ root, env.rootItem = some root ∧
        (gst_qt_overlay_gl_start env self).calls.filter Event.isSignal =
          [.signal_qml_scene_initialized root]) ∧
    ((gst_qt_overlay_gl_start env self).ret = false →
      (gst_qt_overlay_gl_start env self).calls.filter Event.isSignal = []) ∧
    ((∃ scene, self.qml_scene = some scene ∧ scene ≠ "") →
      (env.parent_gl_start self.parent).1 = true → env.init_error = none →
      env.setQmlScene_error = none → env.rootItem = none →
      (gst_qt_overlay_gl_start env self).ret = false ∧
      (gst_qt_overlay_gl_start env self).calls.filter Event.isElementError =
        [.element_error "Qml scene does not have a root item"] ∧
      (gst_qt_overlay_gl_start env self).calls.filter Event.isSignal = []) := by
  rcases hs : self.qml_scene with _ | scene
  · simp [gst_qt_overlay_gl_start, hs, Event.isSignal]
  · by_cases he : scene = ""
    · simp [gst_qt_overlay_gl_start, hs, he, Event.isSignal]
    · rcases hp : (env.parent_gl_start self.parent).1
      · simp [gst_qt_overlay_gl_start, hs, he, hp, Event.isSignal]
      · rcases hi : env.init_error with _ | m1
        · rcases hq : env.setQmlScene_error with _ | m2
          · rcases hr : env.rootItem with _ | root
            · simp [gst_qt_overlay_gl_start, hs, he, hp, hi, hq, hr, Event.isSignal,
                Event.isElementError]
            · simp [gst_qt_overlay_gl_start, hs, he, hp, hi, hq, hr, Event.isSignal]
          · simp [gst_qt_overlay_gl_start, hs, he, hp, hi, hq, Event.isSignal]
        · simp [gst_qt_overlay_gl_start, hs, he, hp, hi, Event.isSignal]

/-- C3 at concrete inputs: a start in which every collaborator succeeds emits the
signal once with root item 9; the same start with a null root item emits nothing. -/
theorem C3_signal_iff_start_succeeds_witness :
    (gst_qt_overlay_gl_start sample_start_ok sample_configured).ret = true ∧
    (gst_qt_overlay_gl_start sample_start_ok sample_configured).calls.filter Event.isSignal =
      [.signal_qml_scene_initialized 9] ∧
    (gst_qt_overlay_gl_start { sample_start_ok with rootItem := none }
      sample_configured).calls.filter Event.isSignal = [] := by
  have hscene : ∃ scene, sample_configured.qml_scene = some scene ∧ scene ≠ "" :=
    ⟨"Rectangle", rfl, by decide⟩
  have hok := (C3_signal_iff_start_succeeds sample_start_ok sample_configured).1.2
    ⟨hscene, rfl, rfl, rfl, 9, rfl⟩
  obtain ⟨root, hroot, hcalls⟩ :=
    (C3_signal_iff_start_succeeds sample_start_ok sample_configured).2.1 hok
  have h9 : root = 9 := (Option.some.inj hroot).symm
  subst h9
  exact ⟨hok, hcalls,
    ((C3_signal_iff_start_succeeds { sample_start_ok with rootItem := none }
      sample_configured).2.2.2 hscene rfl rfl rfl rfl).2.2⟩

/-- The value of `prepare_output_buffer` when the render pass fails. -/
theorem prepare_output_buffer_failure (env : FrameReplies) (self : GstQtOverlay)
    (buffer : InBuffer) (outbuf : Option GstBuffer) (r : Handle)
    (hr : self.renderer = some r) (hg : env.generateOutput = none) :
    gst_qt_overlay_prepare_output_buffer env self buffer outbuf =
      some ⟨.GST_FLOW_ERROR, self,
        push_frame_calls self buffer ++ [.renderer_generateOutput r buffer.pts,
          .gst_error "Failed to generate output"], outbuf⟩ := by
  simp [gst_qt_overlay_prepare_output_buffer, hr, hg]

/-- The value of `prepare_output_buffer` when the render pass succeeds. -/
theorem prepare_output_buffer_success (env : FrameReplies) (self : GstQtOverlay)
    (buffer : InBuffer) (outbuf : Option GstBuffer) (r out_mem : Handle)
    (hr : self.renderer = some r) (hg : env.generateOutput = some out_mem) :
    gst_qt_overlay_prepare_output_buffer env self buffer outbuf =
      some ⟨.GST_FLOW_OK, self,
        push_frame_calls self buffer ++ [.renderer_generateOutput r buffer.pts, .buffer_new,
          .buffer_append_memory out_mem,
          .buffer_add_video_meta 0 self.parent.out_info.format
            (to_guint self.parent.in_info.width) (to_guint self.parent.out_info.height),
          .buffer_add_gl_sync_meta self.parent.context,
          .gl_sync_meta_set_sync_point self.parent.context,
          .copy_metadata buffer.handle],
        some { memory := [out_mem],
               metas := [.video 0 self.parent.out_info.format
                  (to_guint self.parent.in_info.width) (to_guint self.parent.out_info.height),
                 .gl_sync self.parent.context (some self.parent.context)],
               metadata_from := [buffer.handle] }⟩ := by
  simp [gst_qt_overlay_prepare_output_buffer, hr, hg, copy_metadata,
    gst_gl_sync_meta_set_sync_point, gst_buffer_add_gl_sync_meta, gst_buffer_add_video_meta,
    gst_buffer_append_memory, gst_buffer_new, set_sync_point_at]

/-- The calls that push a frame are calls on the surface only. -/
theorem push_frame_calls_widget (self : GstQtOverlay) (buffer : InBuffer) :
    (push_frame_calls self buffer).filter Event.isWidgetCall = push_frame_calls self buffer := by
  cases hw : self.widget <;> simp [push_frame_calls, hw, Event.isWidgetCall]

/-- The calls that push a frame contain no buffer call. -/
theorem push_frame_calls_no_buffer (self : GstQtOverlay) (buffer : InBuffer) :
    (push_frame_calls self buffer).filter Event.isBufferCall = [] := by
  cases hw : self.widget <;> simp [push_frame_calls, hw, Event.isBufferCall]

/-- The video meta that `prepare_output_buffer` attaches after a successful render
pass: format and height come from the output info, the width from the input
info. -/
theorem prepare_output_buffer_video_meta (env : FrameReplies) (self : GstQtOverlay)
    (buffer : InBuffer) (outbuf : Option GstBuffer) (r out_mem : Handle)
    (hr : self.renderer = some r) (hg : env.generateOutput = some out_mem) :
    ∃ o b, gst_qt_overlay_prepare_output_buffer env self buffer outbuf = some o ∧
      o.outbuf = some b ∧
      b.video_metas = [.video 0 self.parent.out_info.format
        (to_guint self.parent.in_info.width) (to_guint self.parent.out_info.height)] := by
  refine ⟨_, _, prepare_output_buffer_success env self buffer outbuf r out_mem hr hg, rfl, ?_⟩
  simp [GstBuffer.video_metas]

/-- C4: with 640x480 negotiated on the input side and 1920x1080 on the output side,
a successful render pass yields a buffer whose video meta has the output format and
the output height 1080 but the width 640 of the input, not the output width 1920;
on the same element `gl_set_caps` sizes the renderer 1920x1080, from the output
info alone. -/
theorem C4_video_meta_takes_input_width :
    sample_running.parent.in_info.width = 640 ∧
    sample_running.parent.out_info.width = 1920 ∧
    (gst_qt_overlay_prepare_output_buffer { generateOutput := some 50 } sample_running
      sample_buffer none).map (fun o => (o.ret, o.outbuf.map GstBuffer.video_metas)) =
      some (.GST_FLOW_OK, some [.video 0 11 640 1080]) ∧
    (gst_qt_overlay_gl_set_caps sample_set_caps_ok sample_running 2 3).map
      (fun o => o.calls.filter Event.isRendererCall) = some [.renderer_setSize 7 1920 1080] := by
  refine ⟨rfl, rfl, ?_, ?_⟩
  · simp [gst_qt_overlay_prepare_output_buffer, sample_running, sample_parent, sample_buffer,
      push_frame_calls, GstBuffer.video_metas, copy_metadata, gst_gl_sync_meta_set_sync_point,
      gst_buffer_add_gl_sync_meta, gst_buffer_add_video_meta, gst_buffer_append_memory,
      gst_buffer_new, set_sync_point_at, to_guint]
  · simp [gst_qt_overlay_gl_set_caps, sample_set_caps_ok, sample_running, sample_parent,
      Event.isRendererCall]

/-- C5: in the running state, when `generateOutput` returns no memory,
`prepare_output_buffer` returns `GST_FLOW_ERROR`, leaves the caller's output slot
and the instance as they were, and after the render call only logs the failure: it
makes no call that creates or fills a buffer. -/
theorem C5_render_failure_no_output (env : FrameReplies) (self : GstQtOverlay)
    (buffer : InBuffer) (outbuf : Option GstBuffer) (r : Handle)
    (hr : self.renderer = some r) (hg : env.generateOutput = none) :
    ∃ o, gst_qt_overlay_prepare_output_buffer env self buffer outbuf = some o ∧
      o.ret = .GST_FLOW_ERROR ∧ o.outbuf = outbuf ∧ o.self = self ∧
      o.calls.filter Event.isBufferCall = [] ∧
      ∃ pushed, pushed.filter Event.isWidgetCall = pushed ∧
        o.calls = pushed ++ [.renderer_generateOutput r buffer.pts,
          .gst_error "Failed to generate output"] := by
  refine ⟨_, prepare_output_buffer_failure env self buffer outbuf r hr hg, rfl, rfl, rfl, ?_,
    push_frame_calls self buffer, push_frame_calls_widget self buffer, rfl⟩
  simp [push_frame_calls_no_buffer, Event.isBufferCall]

/-- C5 at a concrete input: a running element whose render pass fails, with an
output slot that already holds a buffer. -/
theorem C5_render_failure_no_output_witness :
    ∃ o, gst_qt_overlay_prepare_output_buffer { generateOutput := none } sample_running
        sample_buffer (some gst_buffer_new) = some o ∧
      o.ret = .GST_FLOW_ERROR ∧ o.outbuf = some gst_buffer_new := by
  obtain ⟨o, h1, h2, h3, _⟩ := C5_render_failure_no_output { generateOutput := none }
    sample_running sample_buffer (some gst_buffer_new) 7 rfl rfl
  exact ⟨o, h1, h2, h3⟩

/-- C6: in the running state, when `generateOutput` returns a memory,
`prepare_output_buffer` returns `GST_FLOW_OK` and puts in the output slot a buffer
created by `gst_buffer_new` during the call (whatever the slot held before) whose
memories are exactly that one memory, with one video meta and one GL sync meta whose
sync point is set; after the render call the calls are, in order: new buffer,
append memory, add video meta, add sync meta, set sync point, copy metadata from
the input buffer. -/
theorem C6_render_success_output (env : FrameReplies) (self : GstQtOverlay)
    (buffer : InBuffer) (outbuf : Option GstBuffer) (r out_mem : Handle)
    (hr : self.renderer = some r) (hg : env.generateOutput = some out_mem) :
    ∃ o b, gst_qt_overlay_prepare_output_buffer env self buffer outbuf = some o ∧
      o.ret = .GST_FLOW_OK ∧ o.outbuf = some b ∧ o.self = self ∧
      b.memory = [out_mem] ∧
      b.sync_metas = [.gl_sync self.parent.context (some self.parent.context)] ∧
      b.video_metas.length = 1 ∧ b.metas.length = 2 ∧
      b.metadata_from = [buffer.handle] ∧
      ∃ pushed flags format width height, pushed.filter Event.isWidgetCall = pushed ∧
        o.calls = pushed ++ [.renderer_generateOutput r buffer.pts, .buffer_new,
          .buffer_append_memory out_mem,
          .buffer_add_video_meta flags format width height,
          .buffer_add_gl_sync_meta self.parent.context,
          .gl_sync_meta_set_sync_point self.parent.context,
          .copy_metadata buffer.handle] := by
  refine ⟨_, _, prepare_output_buffer_success env self buffer outbuf r out_mem hr hg,
    rfl, rfl, rfl, rfl, ?_, ?_, rfl, rfl,
    push_frame_calls self buffer, _, _, _, _, push_frame_calls_widget self buffer, rfl⟩
  · simp [GstBuffer.sync_metas]
  · simp [GstBuffer.video_metas]

/-- C6 at a concrete input: a running element whose render pass returns memory
50. -/
theorem C6_render_success_output_witness :
    ∃ o b, gst_qt_overlay_prepare_output_buffer { generateOutput := some 50 } sample_running
        sample_buffer none = some o ∧
      o.ret = .GST_FLOW_OK ∧ o.outbuf = some b ∧ b.memory = [50] ∧
      b.sync_metas = [.gl_sync 1 (some 1)] := by
  obtain ⟨o, b, h1, h2, h3, _, h5, h6, _⟩ := C6_render_success_output
    { generateOutput := some 50 } sample_running sample_buffer none 7 50 rfl rfl
  exact ⟨o, b, h1, h2, h3, h5, h6⟩

/-- C9: in the running state `prepare_output_buffer` calls `generateOutput` exactly
once, with the presentation timestamp of the input buffer; when a surface is bound
the calls start with `setCaps` (the negotiated input caps) then `setBuffer` (the
input buffer) on it, then the render call, and no further surface call follows;
when no surface is bound there is no surface call and the render call is still
made. -/
theorem C9_render_clock_and_push_order (env : FrameReplies) (self : GstQtOverlay)
    (buffer : InBuffer) (outbuf : Option GstBuffer) (r : Handle)
    (hr : self.renderer = some r) :
    ∃ o, gst_qt_overlay_prepare_output_buffer env self buffer outbuf = some o ∧
      o.calls.filter Event.isGenerateOutput = [.renderer_generateOutput r buffer.pts] ∧
      (∀ w, self.widget = some w →
        ∃ rest, o.calls = [.widget_setCaps w self.parent.in_caps,
            .widget_setBuffer w (some buffer.handle),
            .renderer_generateOutput r buffer.pts] ++ rest ∧
          rest.filter Event.isWidgetCall = []) ∧
      (self.widget = none →
        o.calls.filter Event.isWidgetCall = [] ∧
        ∃ rest, o.calls = [.renderer_generateOutput r buffer.pts] ++ rest) := by
  cases hg : env.generateOutput <;> cases hw : self.widget <;>
    simp [gst_qt_overlay_prepare_output_buffer, hr, hg, hw, push_frame_calls,
      Event.isGenerateOutput, Event.isWidgetCall]

/-- C9 at a concrete input: a running element with surface 5 bound and a buffer
stamped 40 ms. -/
theorem C9_render_clock_and_push_order_witness :
    ∃ o, gst_qt_overlay_prepare_output_buffer { generateOutput := some 50 } sample_running
        sample_buffer none = some o ∧
      o.calls.filter Event.isGenerateOutput = [.renderer_generateOutput 7 40000000] := by
  obtain ⟨o, h1, h2, _⟩ := C9_render_clock_and_push_order { generateOutput := some 50 }
    sample_running sample_buffer none 7 rfl
  exact ⟨o, h1, h2⟩

/-- C7: for every state of the element, `gl_stop` returns with the renderer field
null; its calls are, in order: `setBuffer(NULL)` on the surface if one is bound,
then `cleanup` followed by the deletion of the renderer if one is held (each once),
then the parent `gl_stop`, last.  Hence a stop right after any start leaves no
renderer held, and a stop right after a stop makes no call on a renderer. -/
theorem C7_stop_releases_renderer (env : StopReplies) (self : GstQtOverlay) :
    (gst_qt_overlay_gl_stop env self).self.renderer = none ∧
    (gst_qt_overlay_gl_stop env self).calls =
      (match self.widget with
        | some w => [Event.widget_setBuffer w none]
        | none => []) ++
      (match self.renderer with
        | some r => [Event.renderer_cleanup r, Event.renderer_delete r]
        | none => []) ++ [Event.parent_gl_stop] ∧
    (∀ start : StartReplies,
      (gst_qt_overlay_gl_stop env (gst_qt_overlay_gl_start start self).self).self.renderer
        = none) ∧
    (∀ again : StopReplies,
      (gst_qt_overlay_gl_stop again (gst_qt_overlay_gl_stop env self).self).calls.filter
        Event.isRendererCall = []) := by
  refine ⟨rfl, ?_, fun _ => rfl, fun again => ?_⟩
  · cases hw : self.widget <;> cases hr : self.renderer <;>
      simp [gst_qt_overlay_gl_stop, hw, hr]
  · cases hw : self.widget <;>
      simp [gst_qt_overlay_gl_stop, hw, Event.isRendererCall]

/-- C7 at a concrete input: stopping a running element with surface 5 and renderer
7 clears the surface, cleans up and deletes the renderer, then stops the parent. -/
theorem C7_stop_releases_renderer_witness :
    (gst_qt_overlay_gl_stop sample_stop sample_running).self.renderer = none ∧
    (gst_qt_overlay_gl_stop sample_stop sample_running).calls =
      [.widget_setBuffer 5 none, .renderer_cleanup 7, .renderer_delete 7, .parent_gl_stop] :=
  ⟨(C7_stop_releases_renderer sample_stop sample_running).1,
   (C7_stop_releases_renderer sample_stop sample_running).2.1⟩

/-- The recorded size after a history followed by further calls. -/
theorem renderer_size_append (r : Handle) (history calls : List Event) :
    renderer_size r (history ++ calls) = calls.foldl (size_after r) (renderer_size r history) := by
  simp [renderer_size, List.foldl_append]

/-- C8: in the running state, when the parent `gl_set_caps` succeeds the hook
returns true and its one call on the renderer is `setSize` with the width and the
height of the output video info, so that after any history the renderer has that
size; when the parent `gl_set_caps` fails the hook returns false, makes no call on
the renderer and the size of the renderer is what it was. -/
theorem C8_set_caps_resizes_renderer (env : SetCapsReplies) (self : GstQtOverlay)
    (in_caps out_caps r : Handle) (hr : self.renderer = some r) :
    ∃ o, gst_qt_overlay_gl_set_caps env self in_caps out_caps = some o ∧
      o.self.renderer = some r ∧
      o.self.parent = (env.parent_gl_set_caps self.parent in_caps out_caps).2 ∧
      ((env.parent_gl_set_caps self.parent in_caps out_caps).1 = true →
        o.ret = true ∧
        o.calls.filter Event.isRendererCall =
          [.renderer_setSize r o.self.parent.out_info.width o.self.parent.out_info.height] ∧
        ∀ history, renderer_size r (history ++ o.calls) =
          some (o.self.parent.out_info.width, o.self.parent.out_info.height)) ∧
      ((env.parent_gl_set_caps self.parent in_caps out_caps).1 = false →
        o.ret = false ∧ o.calls.filter Event.isRendererCall = [] ∧
        ∀ history, renderer_size r (history ++ o.calls) = renderer_size r history) := by
  rcases hp : (env.parent_gl_set_caps self.parent in_caps out_caps).1
  · refine ⟨⟨false, { self with parent := (env.parent_gl_set_caps self.parent in_caps out_caps).2 },
      [.parent_gl_set_caps in_caps out_caps]⟩, by simp [gst_qt_overlay_gl_set_caps, hp], hr, rfl,
      by simp, fun _ => ⟨rfl, by simp [Event.isRendererCall], fun history => ?_⟩⟩
    simp [renderer_size_append, size_after]
  · refine ⟨⟨true, { self with parent := (env.parent_gl_set_caps self.parent in_caps out_caps).2 },
      [.parent_gl_set_caps in_caps out_caps,
        .renderer_setSize r (env.parent_gl_set_caps self.parent in_caps out_caps).2.out_info.width
          (env.parent_gl_set_caps self.parent in_caps out_caps).2.out_info.height]⟩,
      by simp [gst_qt_overlay_gl_set_caps, hp, hr], hr, rfl,
      fun _ => ⟨rfl, by simp [Event.isRendererCall], fun history => ?_⟩, by simp⟩
    simp [renderer_size_append, size_after]

/-- C8 at a concrete input: renderer 7 was sized 640x480; a caps change with output
info 1920x1080 leaves it sized 1920x1080. -/
theorem C8_set_caps_resizes_renderer_witness :
    renderer_size 7 [.renderer_new 7, .renderer_setSize 7 640 480] = some (640, 480) ∧
    ∃ o, gst_qt_overlay_gl_set_caps sample_set_caps_ok sample_running 2 3 = some o ∧
      o.ret = true ∧
      renderer_size 7 ([.renderer_new 7, .renderer_setSize 7 640 480] ++ o.calls)
        = some (1920, 1080) := by
  obtain ⟨o, h1, _, h3, h4, _⟩ :=
    C8_set_caps_resizes_renderer sample_set_caps_ok sample_running 2 3 7 rfl
  refine ⟨by simp [renderer_size, size_after], o, h1, (h4 rfl).1, ?_⟩
  rw [(h4 rfl).2.2, h3]
  rfl

/-- A successful start leaves the renderer it constructed in the renderer field. -/
theorem gl_start_success_renderer (env : StartReplies) (self : GstQtOverlay)
    (h : (gst_qt_overlay_gl_start env self).ret = true) :
    (gst_qt_overlay_gl_start env self).self.renderer = some env.new_renderer := by
  revert h
  rcases hs : self.qml_scene with _ | scene
  · simp [gst_qt_overlay_gl_start, hs]
  · by_cases he : scene = ""
    · simp [gst_qt_overlay_gl_start, hs, he]
    · rcases hp : (env.parent_gl_start self.parent).1
      · simp [gst_qt_overlay_gl_start, hs, he, hp]
      · rcases hi : env.init_error with _ | m1
        · rcases hq : env.setQmlScene_error with _ | m2
          · rcases hr : env.rootItem with _ | root
            · simp [gst_qt_overlay_gl_start, hs, he, hp, hi, hq, hr]
            · simp [gst_qt_overlay_gl_start, hs, he, hp, hi, hq, hr, set_properties_renderer]
          · simp [gst_qt_overlay_gl_start, hs, he, hp, hi, hq]
        · simp [gst_qt_overlay_gl_start, hs, he, hp, hi]

/-- No start, successful or not, replaces a held renderer by a null pointer. -/
theorem gl_start_keeps_renderer (env : StartReplies) (self : GstQtOverlay) (r : Handle)
    (h : self.renderer = some r) :
    ∃ r1, (gst_qt_overlay_gl_start env self).self.renderer = some r1 := by
  rcases hs : self.qml_scene with _ | scene
  · exact ⟨r, by simp [gst_qt_overlay_gl_start, hs, h]⟩
  · by_cases he : scene = ""
    · exact ⟨r, by simp [gst_qt_overlay_gl_start, hs, he, h]⟩
    · rcases hp : (env.parent_gl_start self.parent).1
      · exact ⟨r, by simp [gst_qt_overlay_gl_start, hs, he, hp, h]⟩
      · rcases hi : env.init_error with _ | m1
        · rcases hq : env.setQmlScene_error with _ | m2
          · rcases hr : env.rootItem with _ | root
            · exact ⟨env.new_renderer, by simp [gst_qt_overlay_gl_start, hs, he, hp, hi, hq, hr]⟩
            · exact ⟨env.new_renderer, by
                simp [gst_qt_overlay_gl_start, hs, he, hp, hi, hq, hr, set_properties_renderer]⟩
          · exact ⟨env.new_renderer, by simp [gst_qt_overlay_gl_start, hs, he, hp, hi, hq]⟩
        · exact ⟨env.new_renderer, by simp [gst_qt_overlay_gl_start, hs, he, hp, hi]⟩

/-- While a renderer is held, every operation other than a stop returns and leaves
a renderer held. -/
theorem step_keeps_renderer (s : Sys) (op : Op) (r : Handle)
    (h : s.self.renderer = some r) (hop : op.isStop = false) :
    ∃ s1 r1, step s op = some s1 ∧ s1.self.renderer = some r1 := by
  cases op with
  | set_property w =>
    exact ⟨⟨gst_qt_overlay_set_property s.self w, s.trace⟩, r, rfl,
      by simp [set_property_renderer, h]⟩
  | gl_start env =>
    obtain ⟨r1, h1⟩ := gl_start_keeps_renderer env s.self r h
    exact ⟨⟨(gst_qt_overlay_gl_start env s.self).self,
      s.trace ++ (gst_qt_overlay_gl_start env s.self).calls⟩, r1, rfl, h1⟩
  | gl_set_caps env in_caps out_caps =>
    rcases hp : (env.parent_gl_set_caps s.self.parent in_caps out_caps).1
    · simp [step, gst_qt_overlay_gl_set_caps, hp, h]
    · simp [step, gst_qt_overlay_gl_set_caps, hp, h]
  | prepare_output_buffer env buffer =>
    rcases hg : env.generateOutput with _ | out_mem
    · simp [step, prepare_output_buffer_failure env s.self buffer none r h hg, h]
    · simp [step, prepare_output_buffer_success env s.self buffer none r out_mem h hg, h]
  | transform inbuf outbuf =>
    exact ⟨⟨s.self, s.trace ++ []⟩, r, rfl, h⟩
  | gl_stop env => simp [Op.isStop] at hop

/-- While a renderer is held, every sequence of operations without a stop returns
and leaves a renderer held. -/
theorem run_keeps_renderer (ops : List Op) (s : Sys) (r : Handle)
    (h : s.self.renderer = some r) (hops : ∀ op ∈ ops, op.isStop = false) :
    ∃ s1 r1, run s ops = some s1 ∧ s1.self.renderer = some r1 := by
  induction ops generalizing s r with
  | nil => exact ⟨s, r, rfl, h⟩
  | cons op ops ih =>
    obtain ⟨s1, r1, hs, hr⟩ := step_keeps_renderer s op r h (hops op (List.mem_cons_self op ops))
    obtain ⟨s2, r2, hs2, hr2⟩ := ih s1 r1 hr (fun o ho => hops o (List.mem_cons_of_mem op ho))
    exact ⟨s2, r2, by simp [run, hs, hs2], hr2⟩

/-- C10, as the code has it: after a successful start, every sequence of property
writes, starts, caps changes, frames and transforms (no stop) returns, without a
null dereference, in a state that holds a renderer; a fresh element and every
element after a stop hold none; with no renderer held, `prepare_output_buffer`
always dereferences the null renderer, and `gl_set_caps` dereferences it exactly
when the parent `gl_set_caps` succeeds: when the parent fails it returns false
before touching the renderer. -/
theorem C10_renderer_held_while_running (start : StartReplies) (s : Sys) (ops : List Op)
    (hstart : (gst_qt_overlay_gl_start start s.self).ret = true)
    (hops : ∀ op ∈ ops, op.isStop = false) :
    (∃ s1 r, run s (.gl_start start :: ops) = some s1 ∧ s1.self.renderer = some r) ∧
    (∀ parent, (gst_qt_overlay_init parent).renderer = none) ∧
    (∀ (env : StopReplies) (self : GstQtOverlay),
      (gst_qt_overlay_gl_stop env self).self.renderer = none) ∧
    (∀ (env : FrameReplies) (self : GstQtOverlay) (buffer : InBuffer) (outbuf : Option GstBuffer),
      self.renderer = none →
      gst_qt_overlay_prepare_output_buffer env self buffer outbuf = none) ∧
    (∀ (env : SetCapsReplies) (self : GstQtOverlay) (in_caps out_caps : Handle),
      self.renderer = none →
      (gst_qt_overlay_gl_set_caps env self in_caps out_caps = none ↔
        (env.parent_gl_set_caps self.parent in_caps out_caps).1 = true)) := by
  refine ⟨?_, fun _ => rfl, fun _ _ => rfl, fun env self buffer outbuf h => ?_,
    fun env self in_caps out_caps h => ?_⟩
  · obtain ⟨s1, r1, h1, h2⟩ := run_keeps_renderer ops
      ⟨(gst_qt_overlay_gl_start start s.self).self,
        s.trace ++ (gst_qt_overlay_gl_start start s.self).calls⟩ start.new_renderer
      (gl_start_success_renderer start s.self hstart) hops
    exact ⟨s1, r1, by simpa [run, step] using h1, h2⟩
  · simp [gst_qt_overlay_prepare_output_buffer, h]
  · rcases hp : (env.parent_gl_set_caps self.parent in_caps out_caps).1 <;>
      simp [gst_qt_overlay_gl_set_caps, hp, h]

/-- C10 at a concrete input: a start that succeeds, then a caps change, a frame
whose render fails, a frame whose render succeeds and a transform. -/
theorem C10_renderer_held_while_running_witness :
    ∃ s1 r, run ⟨sample_configured, []⟩
      [.gl_start sample_start_ok, .gl_set_caps sample_set_caps_ok 2 3,
        .prepare_output_buffer { generateOutput := none } sample_buffer,
        .prepare_output_buffer { generateOutput := some 50 } sample_buffer,
        .transform 30 31] = some s1 ∧ s1.self.renderer = some r :=
  (C10_renderer_held_while_running sample_start_ok ⟨sample_configured, []⟩
    [.gl_set_caps sample_set_caps_ok 2 3,
      .prepare_output_buffer { generateOutput := none } sample_buffer,
      .prepare_output_buffer { generateOutput := some 50 } sample_buffer,
      .transform 30 31]
    (by simp [gst_qt_overlay_gl_start, sample_start_ok, sample_configured,
      gst_qt_overlay_set_property, gst_qt_overlay_init, PROP_QML_SCENE, PROP_WIDGET,
      g_value_dup_string])
    (by simp [Op.isStop])).1

/-- C10 as stated fails for a caps change in the stopped state whose parent
`gl_set_caps` fails: the renderer field is null, and the hook returns false after
the parent call without reaching the dereference of the renderer. -/
theorem C10_stopped_set_caps_counterexample :
    (gst_qt_overlay_init sample_parent).renderer = none ∧
    (gst_qt_overlay_gl_set_caps sample_set_caps_fails (gst_qt_overlay_init sample_parent)
      2 3).map (fun o => (o.ret, o.calls)) = some (false, [.parent_gl_set_caps 2 3]) ∧
    gst_qt_overlay_gl_set_caps sample_set_caps_fails (gst_qt_overlay_init sample_parent)
      2 3 ≠ none := by
  simp [gst_qt_overlay_gl_set_caps, sample_set_caps_fails, gst_qt_overlay_init]

end QtOverlay
